import Mathlib

set_option maxRecDepth 1000000

/-!
Shallow embedding of `livestreamer_cli/output.py`.

Bytes are modelled as natural numbers and byte strings as `List Nat`; the
concrete byte values never matter to the control flow being verified.
-/

namespace Livestreamer

/- ----------------------------------------------------------------
   Packetizer: `MulticastOutput.iterdata` (output.py lines 219-234).

   Python:
     def iterdata(self, data, size=188):
         offset = len(self.remainder)
         if offset:
             # we can *still* wind up with a short packet here
             yield self.remainder + data[:size-offset]
             self.remainder = (the empty bytes literal)
             offset = size-offset
         for i in range(offset, len(data)+1, size):
             packet = data[i:i+size]
             if len(packet) != size:
                 self.remainder = packet
                 break
             else:
                 yield packet

   The generator is always drained in full by `_write`, so one `feed`
   call is modelled as a pure function from (remainder, data) to
   (emitted packets, new remainder).
   ---------------------------------------------------------------- -/

/--
The `for i in range(offset, len(data)+1, size)` loop of `iterdata`,
modelled on the suffix `rest = data[i:]`.  The loop body slices
`packet = data[i:i+size] = rest.take size`; a full packet is yielded and
the loop advances by `size` (whenever a full packet exists, the next
index `i + size` is still `≤ len(data)`, hence still in the range); a
short packet becomes the remainder and the loop breaks.  `fuel` bounds
the number of iterations; every call below passes `data.length + 1`,
which is never exhausted because each step consumes `size ≥ 1` bytes.
-/
def emitPackets : Nat → List Nat → Nat → List (List Nat) × List Nat
  | 0, rest, size => ([], rest.take size)
  | fuel + 1, rest, size =>
    let packet := rest.take size
    if packet.length = size then
      let r := emitPackets fuel (rest.drop size) size
      (packet :: r.1, r.2)
    else
      ([], packet)

/--
One full drain of `MulticastOutput.iterdata(data, size)` started with
`self.remainder = remainder`: returns the yielded packets and the value
of `self.remainder` afterwards.  When a remainder is pending
(`offset ≠ 0`), the first yield is `remainder + data[:size-offset]` and
the remainder is reset to empty before the loop; if the loop range
`range(size-offset, len(data)+1, size)` is empty the reset remainder
survives.  (States with `len(remainder) ≥ size` are unreachable — the
class attribute starts empty and every call re-establishes
`len(remainder) < size` — so truncated subtraction `size - offset`
agrees with Python on every reachable state.)
-/
def iterdata (remainder data : List Nat) (size : Nat) : List (List Nat) × List Nat :=
  let offset := remainder.length
  if offset ≠ 0 then
    let first := remainder ++ data.take (size - offset)
    if size - offset ≤ data.length then
      let r := emitPackets (data.length + 1) (data.drop (size - offset)) size
      (first :: r.1, r.2)
    else
      ([first], [])
  else
    let r := emitPackets (data.length + 1) data size
    (r.1, r.2)

/-- A sequence of `feed` calls (each one `_write` draining `iterdata`
with the MPEG-TS size 188), threading the remainder through. -/
def feedAll (remainder : List Nat) : List (List Nat) → List (List Nat) × List Nat
  | [] => ([], remainder)
  | d :: ds =>
    let r1 := iterdata remainder d 188
    let r2 := feedAll r1.2 ds
    (r1.1 ++ r2.1, r2.2)

/-- The condition under which a feed call completes any pending
remainder: either no remainder is pending, or `data` has at least
`188 - len(remainder)` bytes. -/
def completesRemainder (r d : List Nat) : Bool :=
  r.isEmpty || decide (188 - r.length ≤ d.length)

/-- Every call of the sequence completes the remainder pending at its
start. -/
def wellFed (r : List Nat) : List (List Nat) → Bool
  | [] => true
  | d :: ds => completesRemainder r d && wellFed (iterdata r d 188).2 ds

/- ----------------------------------------------------------------
   Output lifecycle (output.py lines 16-44): class Output with
   open / close / write around the concrete hooks, plus the
   __init__ methods of the three concrete sinks (lines 46-49, 67-90,
   188-194), none of which calls Output.__init__.
   ---------------------------------------------------------------- -/

/-- Python exceptions raised on the modelled code paths. -/
inductive PyErr
  | attributeError (attr : String)
  | ioError (msg : String)
  | osError (msg : String)
  deriving DecidableEq, Repr

instance : DecidableEq (Except PyErr Unit) := fun a b =>
  match a, b with
  | .error e, .error f =>
    if h : e = f then isTrue (by rw [h]) else isFalse (by simp [h])
  | .ok _, .ok _ => isTrue rfl
  | .error _, .ok _ => isFalse (by simp)
  | .ok _, .error _ => isFalse (by simp)

instance : DecidableEq (Except PyErr (List Nat)) := fun a b =>
  match a, b with
  | .error e, .error f =>
    if h : e = f then isTrue (by rw [h]) else isFalse (by simp [h])
  | .ok x, .ok y =>
    if h : x = y then isTrue (by rw [h]) else isFalse (by simp [h])
  | .error _, .ok _ => isFalse (by simp)
  | .ok _, .error _ => isFalse (by simp)

/-- The `opened` attribute of an instance; `none` models a Python object
on which the attribute was never assigned, so that reading it raises
AttributeError. -/
abbrev OpenedAttr := Option Bool

/-- Output.__init__ assigns self.opened = False. -/
def Output.initOpened : OpenedAttr := some false

/-- FileOutput.__init__ assigns only filename and fd; it never calls
Output.__init__, so the opened attribute is left unassigned. -/
def FileOutput.initOpened : OpenedAttr := none

/-- PlayerOutput.__init__ assigns cmd, args, flags and streams; it never
calls Output.__init__, so the opened attribute is left unassigned. -/
def PlayerOutput.initOpened : OpenedAttr := none

/-- MulticastOutput has class attributes socket and remainder and its
__init__ assigns url and address; it never calls Output.__init__, so the
opened attribute is left unassigned. -/
def MulticastOutput.initOpened : OpenedAttr := none

/-- Output.write(data): reads self.opened (AttributeError when the
attribute was never assigned); raises IOError("Output is not opened")
when it is False; otherwise hands data to the concrete self._write. -/
def Output.write (opened : OpenedAttr) (data : List Nat) :
    Except PyErr (List Nat) :=
  match opened with
  | none => .error (.attributeError "opened")
  | some false => .error (.ioError "Output is not opened")
  | some true => .ok data

/-- Outcome of one Output.close call: the returned-or-raised result, the
opened attribute afterwards, and whether the concrete _close ran. -/
structure CloseResult where
  result : Except PyErr Unit
  opened : OpenedAttr
  teardownRan : Bool
  deriving DecidableEq, Repr

/-- Output.close(): reads self.opened (AttributeError when never
assigned); when True it runs the concrete _close, whose outcome is the
teardown argument, and the final `self.opened = False` line runs only if
_close returned — there is no try/finally, so a raising teardown leaves
the flag as it was. -/
def Output.close (opened : OpenedAttr) (teardown : Except PyErr Unit) :
    CloseResult :=
  match opened with
  | none => ⟨.error (.attributeError "opened"), none, false⟩
  | some true =>
    match teardown with
    | .error e => ⟨.error e, some true, true⟩
    | .ok _ => ⟨.ok (), some false, true⟩
  | some false => ⟨.ok (), some false, false⟩

/- ----------------------------------------------------------------
   PlayerOutput process supervision (output.py lines 66-173).
   ---------------------------------------------------------------- -/

/-- The PlayerOutput configuration fixed by __init__: which of the
namedpipe / http / filename attributes are set (truthy), and the
quiet, kill and call flags. -/
structure PlayerConfig where
  namedpipe : Bool
  http : Bool
  filename : Bool
  quiet : Bool
  kill : Bool
  call : Bool
  deriving DecidableEq, Repr

/-- Observable actions a PlayerOutput performs on its collaborators. -/
inductive PAction
  | spawn          -- subprocess.Popen in _open_subprocess, assigns self.player
  | callChild      -- subprocess.call in _open_call (blocking)
  | livenessPoll   -- self.running: sleep(0.5) then self.player.poll()
  | namedpipeOpen  -- self.namedpipe.open("wb")
  | httpOpen       -- self.http.open()
  | devnullClose   -- closing the parent-side null streams (finally block)
  | namedpipeClose -- self.namedpipe.close()
  | httpClose      -- self.http.close()
  | stdinClose     -- self.player.stdin.close()
  | killChild      -- self.player.kill()
  | waitChild      -- self.player.wait()
  deriving DecidableEq, Repr

/-- Sequencing of two effectful steps: the second runs only when the
first did not raise; the first component is the trace of actions taken. -/
def andThen (a b : List PAction × Except PyErr Unit) :
    List PAction × Except PyErr Unit :=
  match a.2 with
  | .error e => (a.1, .error e)
  | .ok _ => (a.1 ++ b.1, b.2)

/-- `with ignored(Exception):` from utils — run the step and discard any
exception it raises. -/
def ignored (a : List PAction × Except PyErr Unit) :
    List PAction × Except PyErr Unit :=
  (a.1, .ok ())

/-- PlayerOutput._open_subprocess, parametrized by whether the spawned
child has already exited when the single liveness poll (property
`running`: sleep 0.5 then poll) inspects it: spawn, poll, raise
OSError("Process exited prematurely") — the PrematureExitError of the
spec — when the child exited, and only otherwise open the named pipe or
the HTTP sink. -/
def PlayerOutput.openSubprocess (c : PlayerConfig) (childExited : Bool) :
    List PAction × Except PyErr Unit :=
  andThen ([.spawn], .ok ())
    (andThen ([.livenessPoll],
        if childExited then .error (.osError "Process exited prematurely")
        else .ok ())
      (if c.namedpipe then ([.namedpipeOpen], .ok ())
       else if c.http then ([.httpOpen], .ok ())
       else ([], .ok ())))

/-- PlayerOutput._open: blocking call mode when both call and filename
are set, otherwise async spawn mode; the finally block closes the
parent-side null streams when quiet, whether or not the body raised. -/
def PlayerOutput.openBody (c : PlayerConfig) (childExited : Bool) :
    List PAction × Except PyErr Unit :=
  let body := if c.call && c.filename then ([.callChild], .ok ())
              else PlayerOutput.openSubprocess c childExited
  (body.1 ++ (if c.quiet then [.devnullClose] else []), body.2)

/-- Whether self.player is assigned by _open: only the async spawn path
assigns it; _open_call runs subprocess.call and stores no handle. -/
def PlayerOutput.playerAssigned (c : PlayerConfig) : Bool :=
  !(c.call && c.filename)

/-- PlayerOutput.open(): Output.open around _open — the
`self.opened = True` line runs only when _open returns normally, so a
premature exit leaves the opened attribute exactly as __init__ left it. -/
def PlayerOutput.openMethod (c : PlayerConfig) (childExited : Bool) :
    List PAction × Except PyErr Unit × OpenedAttr :=
  let body := PlayerOutput.openBody c childExited
  match body.2 with
  | .error e => (body.1, .error e, PlayerOutput.initOpened)
  | .ok _ => (body.1, .ok (), some true)

/-- PlayerOutput._close step 1: close the input channel — the named pipe
when set, else the HTTP sink when set, else (no filename either: the
direct pipe case) self.player.stdin.close(), which needs the player
attribute. -/
def PlayerOutput.closeInput (c : PlayerConfig) (player : Bool) :
    List PAction × Except PyErr Unit :=
  if c.namedpipe then ([.namedpipeClose], .ok ())
  else if c.http then ([.httpClose], .ok ())
  else if !c.filename then
    (if player then ([.stdinClose], .ok ())
     else ([], .error (.attributeError "player")))
  else ([], .ok ())

/-- PlayerOutput._close step 2: when kill is set, self.player.kill()
inside with ignored(Exception); killRaises covers a child that already
exited, and a missing player attribute raises before any kill happens —
either way the error is discarded. -/
def PlayerOutput.killStep (c : PlayerConfig) (player killRaises : Bool) :
    List PAction × Except PyErr Unit :=
  if c.kill then
    ignored (if player then
        ([.killChild],
          if killRaises then .error (.osError "No such process") else .ok ())
      else ([], .error (.attributeError "player")))
  else ([], .ok ())

/-- PlayerOutput._close step 3: self.player.wait(), with no guard. -/
def PlayerOutput.waitStep (player : Bool) :
    List PAction × Except PyErr Unit :=
  if player then ([.waitChild], .ok ())
  else ([], .error (.attributeError "player"))

/-- PlayerOutput._close: the three steps in source order. -/
def PlayerOutput.closeBody (c : PlayerConfig) (player killRaises : Bool) :
    List PAction × Except PyErr Unit :=
  andThen (PlayerOutput.closeInput c player)
    (andThen (PlayerOutput.killStep c player killRaises)
      (PlayerOutput.waitStep player))

end Livestreamer
namespace Livestreamer

theorem emitPackets_spec (size : Nat) (hs : 0 < size) :
    ∀ fuel rest, rest.length < fuel →
      (emitPackets fuel rest size).1.flatten ++ (emitPackets fuel rest size).2 = rest ∧
      (∀ p ∈ (emitPackets fuel rest size).1, p.length = size) ∧
      (emitPackets fuel rest size).2.length < size := by
  intro fuel
  induction fuel with
  | zero => intro rest h; exact absurd h (Nat.not_lt_zero _)
  | succ n ih =>
    intro rest h
    by_cases hp : (rest.take size).length = size
    · have hsz : size ≤ rest.length := by
        have := List.length_take size rest
        omega
      have hlt : (rest.drop size).length < n := by
        have := List.length_drop size rest
        omega
      obtain ⟨h1, h2, h3⟩ := ih (rest.drop size) hlt
      simp only [emitPackets, hp, if_pos]
      refine ⟨?_, ?_, h3⟩
      · simp only [List.flatten_cons, List.append_assoc, h1]
        exact List.take_append_drop size rest
      · intro p hmem
        rcases List.mem_cons.mp hmem with hpk | hmem
        · simpa [hpk] using hp
        · exact h2 p hmem
    · have hlen : rest.length < size := by
        have := List.length_take size rest
        omega
      have htake : rest.take size = rest := List.take_of_length_le (Nat.le_of_lt hlen)
      simp only [emitPackets, hp, if_neg, not_false_iff]
      refine ⟨by simpa using htake, by simp, ?_⟩
      rw [htake]; exact hlen

end Livestreamer
namespace Livestreamer

theorem iterdata_of_pending (r d : List Nat) (size : Nat)
    (h0 : r.length ≠ 0) (hc : size - r.length ≤ d.length) :
    iterdata r d size =
      ((r ++ d.take (size - r.length)) ::
          (emitPackets (d.length + 1) (d.drop (size - r.length)) size).1,
        (emitPackets (d.length + 1) (d.drop (size - r.length)) size).2) := by
  simp [iterdata, h0, hc]

theorem iterdata_of_short (r d : List Nat) (size : Nat)
    (h0 : r.length ≠ 0) (hc : ¬ size - r.length ≤ d.length) :
    iterdata r d size = ([r ++ d.take (size - r.length)], []) := by
  simp [iterdata, h0, hc]

theorem iterdata_of_empty (r d : List Nat) (size : Nat) (h0 : r.length = 0) :
    iterdata r d size =
      ((emitPackets (d.length + 1) d size).1, (emitPackets (d.length + 1) d size).2) := by
  simp [iterdata, h0]

theorem iterdata_remainder_lt (r d : List Nat) (size : Nat) (hs : 0 < size) :
    (iterdata r d size).2.length < size := by
  by_cases h0 : r.length = 0
  · rw [iterdata_of_empty r d size h0]
    exact (emitPackets_spec size hs (d.length + 1) d (Nat.lt_succ_self _)).2.2
  · by_cases hc : size - r.length ≤ d.length
    · rw [iterdata_of_pending r d size h0 hc]
      have hfuel : (d.drop (size - r.length)).length < d.length + 1 := by
        have := List.length_drop (size - r.length) d
        omega
      exact (emitPackets_spec size hs (d.length + 1) (d.drop (size - r.length)) hfuel).2.2
    · rw [iterdata_of_short r d size h0 hc]
      simpa using hs

theorem iterdata_spec (r d : List Nat) (size : Nat) (hs : 0 < size)
    (hr : r.length < size) (hc : r = [] ∨ size - r.length ≤ d.length) :
    (iterdata r d size).1.flatten ++ (iterdata r d size).2 = r ++ d ∧
    (∀ p ∈ (iterdata r d size).1, p.length = size) ∧
    (iterdata r d size).2.length < size := by
  refine ⟨?_, ?_, iterdata_remainder_lt r d size hs⟩
  all_goals by_cases h0 : r.length = 0
  case pos =>
    have hnil : r = [] := List.eq_nil_of_length_eq_zero h0
    subst hnil
    rw [iterdata_of_empty [] d size rfl]
    simpa using (emitPackets_spec size hs (d.length + 1) d (Nat.lt_succ_self _)).1
  case neg =>
    have hc : size - r.length ≤ d.length := by
      rcases hc with hc | hc
      · exact absurd (by simp [hc]) h0
      · exact hc
    have hfuel : (d.drop (size - r.length)).length < d.length + 1 := by
      have := List.length_drop (size - r.length) d
      omega
    rw [iterdata_of_pending r d size h0 hc]
    have h1 := (emitPackets_spec size hs (d.length + 1) (d.drop (size - r.length)) hfuel).1
    simp only [List.flatten_cons, List.append_assoc]
    rw [h1, List.take_append_drop]
  case pos =>
    have hnil : r = [] := List.eq_nil_of_length_eq_zero h0
    subst hnil
    rw [iterdata_of_empty [] d size rfl]
    simpa using (emitPackets_spec size hs (d.length + 1) d (Nat.lt_succ_self _)).2.1
  case neg =>
    have hc : size - r.length ≤ d.length := by
      rcases hc with hc | hc
      · exact absurd (by simp [hc]) h0
      · exact hc
    have hfuel : (d.drop (size - r.length)).length < d.length + 1 := by
      have := List.length_drop (size - r.length) d
      omega
    rw [iterdata_of_pending r d size h0 hc]
    intro p hmem
    rcases List.mem_cons.mp hmem with hpk | hmem
    · subst hpk
      have hlt : (d.take (size - r.length)).length = size - r.length := by
        have := List.length_take (size - r.length) d
        omega
      simp only [List.length_append, hlt]
      omega
    · exact (emitPackets_spec size hs (d.length + 1) (d.drop (size - r.length)) hfuel).2.1 p hmem

theorem flatten_length_of_packets (ps : List (List Nat)) (n : Nat)
    (h : ∀ p ∈ ps, p.length = n) : ps.flatten.length = n * ps.length := by
  induction ps with
  | nil => simp
  | cons p ps ih =>
    have hp : p.length = n := h p (List.mem_cons_self p ps)
    have ih' := ih (fun q hq => h q (List.mem_cons_of_mem p hq))
    simp [List.flatten_cons, hp, ih', Nat.mul_succ]
    omega

theorem feedAll_spec (datas : List (List Nat)) : ∀ r : List Nat, r.length < 188 →
    wellFed r datas = true →
    (feedAll r datas).1.flatten ++ (feedAll r datas).2 = r ++ datas.flatten ∧
    (∀ p ∈ (feedAll r datas).1, p.length = 188) ∧
    (feedAll r datas).2.length < 188 := by
  induction datas with
  | nil => intro r hr _; simp [feedAll, hr]
  | cons d ds ih =>
    intro r hr hw
    have hw1 : completesRemainder r d = true ∧ wellFed (iterdata r d 188).2 ds = true := by
      simpa [wellFed, Bool.and_eq_true] using hw
    have hc : r = [] ∨ 188 - r.length ≤ d.length := by
      have hh := hw1.1
      simp only [completesRemainder, Bool.or_eq_true, List.isEmpty_iff,
        decide_eq_true_eq] at hh
      rcases hh with h | h
      · exact Or.inl h
      · exact Or.inr h
    obtain ⟨e1, e2, e3⟩ := iterdata_spec r d 188 (by omega) hr hc
    obtain ⟨f1, f2, f3⟩ := ih (iterdata r d 188).2 e3 hw1.2
    refine ⟨?_, ?_, ?_⟩
    · show ((iterdata r d 188).1 ++ (feedAll (iterdata r d 188).2 ds).1).flatten ++
          (feedAll (iterdata r d 188).2 ds).2 = r ++ (d :: ds).flatten
      rw [List.flatten_append, List.append_assoc, f1, ← List.append_assoc, e1,
        List.flatten_cons, List.append_assoc]
    · intro p hmem
      rcases List.mem_append.mp hmem with hmem | hmem
      · exact e2 p hmem
      · exact f2 p hmem
    · exact f3

theorem feedAll_remainder_lt (datas : List (List Nat)) :
    ∀ r : List Nat, (feedAll r datas).2.length < 188 ∨ (feedAll r datas).2 = r := by
  induction datas with
  | nil => intro r; exact Or.inr rfl
  | cons d ds ih =>
    intro r
    show (feedAll (iterdata r d 188).2 ds).2.length < 188 ∨ _
    rcases ih (iterdata r d 188).2 with h | h
    · exact Or.inl h
    · rw [h]
      exact Or.inl (iterdata_remainder_lt r d 188 (by omega))

/-- C7: starting from the empty remainder, after every finite sequence of
feed calls the Packetizer remainder has length strictly less than the
packet size 188 (hence in the interval from 0 inclusive to 188 exclusive). -/
theorem C7_remainder_invariant (datas : List (List Nat)) :
    (feedAll [] datas).2.length < 188 := by
  rcases feedAll_remainder_lt datas [] with h | h
  · exact h
  · simp [h]

/-- C1 counterexample: with a 24-byte remainder pending, feeding 100 bytes
(too few to complete the remainder to 188) emits one short packet of
124 bytes instead of emitting nothing, and the remainder is reset to empty
instead of holding the combined bytes. -/
theorem C1_counterexample :
    (∃ p ∈ (iterdata (List.replicate 24 7) (List.replicate 100 3) 188).1,
        p.length ≠ 188) ∧
    (iterdata (List.replicate 24 7) (List.replicate 100 3) 188).2 ≠
      List.replicate 24 7 ++ List.replicate 100 3 := by decide

/-- C1 (amended): every packet emitted by a feed call with no pending
remainder, or whose data suffices to complete the pending remainder, has
length exactly 188; but when the remainder is pending and the data is too
short to complete it, the call emits exactly one short packet consisting of
the remainder followed by all of the data, and resets the remainder to
empty. -/
theorem C1_packet_sizes_amended (r d : List Nat) (hr : r.length < 188) :
    ((r = [] ∨ 188 - r.length ≤ d.length) →
      ∀ p ∈ (iterdata r d 188).1, p.length = 188) ∧
    (r ≠ [] → d.length < 188 - r.length →
      iterdata r d 188 = ([r ++ d], [])) := by
  constructor
  · intro hc
    exact (iterdata_spec r d 188 (by omega) hr hc).2.1
  · intro h0 hd
    have h0' : r.length ≠ 0 := fun h => h0 (List.eq_nil_of_length_eq_zero h)
    have hc : ¬ 188 - r.length ≤ d.length := by omega
    rw [iterdata_of_short r d 188 h0' hc,
      List.take_of_length_le (show d.length ≤ 188 - r.length by omega)]

theorem C1_packet_sizes_amended_witness :
    iterdata (List.replicate 24 7) (List.replicate 100 3) 188 =
      ([List.replicate 24 7 ++ List.replicate 100 3], []) :=
  (C1_packet_sizes_amended (List.replicate 24 7) (List.replicate 100 3)
      (by decide)).2 (by decide) (by decide)

/-- C2 counterexample: feeding 24 bytes and then 100 bytes (124 bytes in
total, whose longest prefix of length a multiple of 188 is empty) emits
124 bytes of output, so the concatenated output differs from that prefix. -/
theorem C2_counterexample :
    (feedAll [] [List.replicate 24 7, List.replicate 100 3]).1.flatten ≠
      ([List.replicate 24 7, List.replicate 100 3] : List (List Nat)).flatten.take
        (188 * (([List.replicate 24 7, List.replicate 100 3] :
            List (List Nat)).flatten.length / 188)) := by decide

/-- C2 (amended): provided every feed call made while a remainder is pending
supplies at least 188 - len(remainder) bytes, the concatenation of all
emitted packets equals the longest prefix of the concatenated input whose
length is a multiple of 188, the remainder is the corresponding suffix of
length below 188, and a pending remainder is delivered as the front of the
first packet of the next call that completes it. -/
theorem C2_reassembly_amended (datas : List (List Nat))
    (hw : wellFed [] datas = true) :
    (feedAll [] datas).1.flatten =
      datas.flatten.take (188 * (datas.flatten.length / 188)) ∧
    (feedAll [] datas).2 =
      datas.flatten.drop (188 * (datas.flatten.length / 188)) ∧
    (feedAll [] datas).2.length < 188 ∧
    (∀ d : List Nat, (feedAll [] datas).2 ≠ [] →
      188 - (feedAll [] datas).2.length ≤ d.length →
      ((iterdata (feedAll [] datas).2 d 188).1).head? =
        some ((feedAll [] datas).2 ++
          d.take (188 - (feedAll [] datas).2.length))) := by
  obtain ⟨h1, h2, h3⟩ := feedAll_spec datas [] (by decide) hw
  rw [List.nil_append] at h1
  have hF : (feedAll [] datas).1.flatten.length =
      188 * (feedAll [] datas).1.length :=
    flatten_length_of_packets _ 188 h2
  have hlen : datas.flatten.length =
      (feedAll [] datas).1.flatten.length + (feedAll [] datas).2.length := by
    rw [← h1, List.length_append]
  have hdiv : 188 * (datas.flatten.length / 188) =
      (feedAll [] datas).1.flatten.length := by
    rw [hlen, hF, Nat.mul_add_div (by norm_num),
      Nat.div_eq_of_lt h3, Nat.add_zero]
  refine ⟨?_, ?_, h3, ?_⟩
  · rw [hdiv, ← h1, List.take_left]
  · rw [hdiv, ← h1, List.drop_left]
  · intro d hne hd
    have h0 : (feedAll [] datas).2.length ≠ 0 :=
      fun h => hne (List.eq_nil_of_length_eq_zero h)
    rw [iterdata_of_pending _ d 188 h0 hd]
    rfl

theorem C2_reassembly_amended_witness :
    (feedAll [] [List.replicate 200 1]).1.flatten =
      ([List.replicate 200 1] : List (List Nat)).flatten.take
        (188 * (([List.replicate 200 1] : List (List Nat)).flatten.length / 188)) ∧
    (feedAll [] [List.replicate 200 1]).2.length < 188 :=
  ⟨(C2_reassembly_amended [List.replicate 200 1] (by decide)).1,
   (C2_reassembly_amended [List.replicate 200 1] (by decide)).2.2.1⟩

/-- C8: feeding 400 bytes and then 176 bytes, starting from an empty
remainder, emits exactly two 188-byte packets on the first call leaving a
24-byte remainder, and exactly one further 188-byte packet on the second
call (the remainder completed by the first 164 new bytes, forming the
contiguous third 188-byte slice of the stream) leaving the final 12 bytes
as the new remainder. -/
theorem C8_concrete_scenario :
    (iterdata [] (List.range 400) 188).1 =
      [List.range' 0 188, List.range' 188 188] ∧
    (iterdata [] (List.range 400) 188).2 = List.range' 376 24 ∧
    (iterdata (iterdata [] (List.range 400) 188).2
        (List.range' 400 176) 188).1 = [List.range' 376 188] ∧
    (iterdata (iterdata [] (List.range 400) 188).2
        (List.range' 400 176) 188).2 = List.range' 564 12 := by decide

/-- C3: calling write before a successful open never silently succeeds,
but on all three concrete sinks it raises AttributeError for the unset
opened attribute — their __init__ methods never call Output.__init__ —
instead of the intended IOError("Output is not opened") that the base
class raises once the attribute is initialized to False. -/
theorem C3_unopened_write_raises (data : List Nat) :
    Output.write FileOutput.initOpened data = .error (.attributeError "opened") ∧
    Output.write PlayerOutput.initOpened data = .error (.attributeError "opened") ∧
    Output.write MulticastOutput.initOpened data = .error (.attributeError "opened") ∧
    Output.write Output.initOpened data = .error (.ioError "Output is not opened") ∧
    (∀ o : OpenedAttr, o ≠ some true → ∀ r, Output.write o data ≠ .ok r) := by
  refine ⟨rfl, rfl, rfl, rfl, ?_⟩
  intro o ho r
  match o with
  | none => exact fun h => Except.noConfusion h
  | some false => exact fun h => Except.noConfusion h
  | some true => exact absurd rfl ho

theorem C3_unopened_write_raises_witness :
    Output.write FileOutput.initOpened [5] = .error (.attributeError "opened") :=
  (C3_unopened_write_raises [5]).1

/-- C4: close after a successful open followed by a second close invokes
no teardown and does not raise on the second call; but close on a
never-opened concrete sink (FileOutput, PlayerOutput or MulticastOutput,
whose __init__ methods never call Output.__init__) raises AttributeError
reading the unset opened attribute instead of being a safe no-op. -/
theorem C4_close_safety (t : Except PyErr Unit) :
    (Output.close FileOutput.initOpened t).result =
      .error (.attributeError "opened") ∧
    (Output.close FileOutput.initOpened t).teardownRan = false ∧
    (Output.close PlayerOutput.initOpened t).result =
      .error (.attributeError "opened") ∧
    (Output.close MulticastOutput.initOpened t).result =
      .error (.attributeError "opened") ∧
    (Output.close (some true) (.ok ())).teardownRan = true ∧
    (Output.close (Output.close (some true) (.ok ())).opened t).teardownRan
      = false ∧
    (Output.close (Output.close (some true) (.ok ())).opened t).result
      = .ok () := by
  exact ⟨rfl, rfl, rfl, rfl, rfl, rfl, rfl⟩

theorem C4_close_safety_witness :
    (Output.close FileOutput.initOpened (.ok ())).result =
      .error (.attributeError "opened") :=
  (C4_close_safety (.ok ())).1

/-- C5 counterexample: on an opened sink whose teardown raises, close
propagates the exception and leaves the opened flag set — the
`self.opened = False` line is skipped because there is no try/finally. -/
theorem C5_counterexample :
    (Output.close (some true) (.error (.osError "teardown failed"))).opened
        ≠ some false ∧
    (Output.close (some true) (.error (.osError "teardown failed"))).result
        = .error (.osError "teardown failed") := by
  exact ⟨by decide, rfl⟩

/-- C5 (amended): close on an opened sink clears the opened flag whenever
teardown returns normally (and on an already-closed sink the flag stays
false), but when teardown raises, the exception propagates and the opened
flag remains true. -/
theorem C5_close_flag_amended (e : PyErr) (t : Except PyErr Unit) :
    (Output.close (some true) (.ok ())).opened = some false ∧
    (Output.close (some true) (.ok ())).result = .ok () ∧
    (Output.close (some false) t).opened = some false ∧
    (Output.close (some true) (.error e)).opened = some true ∧
    (Output.close (some true) (.error e)).result = .error e := by
  exact ⟨rfl, rfl, rfl, rfl, rfl⟩

/-- C6: in async spawn mode (not blocking call mode), when the child has
exited by the time of the single liveness poll, open fails with
OSError("Process exited prematurely") — the PrematureExitError — and the
opened attribute is exactly as __init__ left it, with neither the named
pipe nor the HTTP sink opened; when the child is still running, open
succeeds, the sink is marked opened, and the named pipe or HTTP sink (if
configured) is opened only after the liveness poll. -/
theorem C6_premature_exit (c : PlayerConfig)
    (h : (c.call && c.filename) = false) :
    ((PlayerOutput.openMethod c true).2.1 =
        .error (.osError "Process exited prematurely") ∧
      (PlayerOutput.openMethod c true).2.2 = PlayerOutput.initOpened ∧
      PAction.namedpipeOpen ∉ (PlayerOutput.openMethod c true).1 ∧
      PAction.httpOpen ∉ (PlayerOutput.openMethod c true).1) ∧
    ((PlayerOutput.openMethod c false).2.1 = .ok () ∧
      (PlayerOutput.openMethod c false).2.2 = some true ∧
      (PlayerOutput.openMethod c false).1 =
        [PAction.spawn, PAction.livenessPoll] ++
        (if c.namedpipe then [PAction.namedpipeOpen]
         else if c.http then [PAction.httpOpen] else []) ++
        (if c.quiet then [PAction.devnullClose] else [])) := by
  obtain ⟨np, ht, fn, q, k, cl⟩ := c
  revert h
  cases np <;> cases ht <;> cases fn <;> cases q <;> cases k <;> cases cl <;>
    intro h <;> first
      | exact absurd h (by decide)
      | decide

theorem C6_premature_exit_witness :
    (PlayerOutput.openMethod ⟨true, false, false, true, true, false⟩
        false).2.2 = some true :=
  (C6_premature_exit ⟨true, false, false, true, true, false⟩ rfl).2.2.1

/-- C9: closing a PlayerOutput that holds a child-process handle (the
handle is assigned exactly when the sink was opened in async spawn mode)
performs, in order: the input-channel close — named pipe when set, else
HTTP sink when set, else the child process handle stdin in the direct
pipe case, else nothing when a filename is configured — then the kill of
the child exactly when killOnClose is set (with any error from an
already-exited child suppressed), then the unconditional wait; and the
whole close returns normally even when the kill raised. -/
theorem C9_close_sequence (c : PlayerConfig) (killRaises : Bool)
    (hp : PlayerOutput.playerAssigned c = true) :
    (PlayerOutput.closeBody c (PlayerOutput.playerAssigned c) killRaises).1 =
      (if c.namedpipe then [PAction.namedpipeClose]
       else if c.http then [PAction.httpClose]
       else if !c.filename then [PAction.stdinClose] else []) ++
      (if c.kill then [PAction.killChild] else []) ++ [PAction.waitChild] ∧
    (PlayerOutput.closeBody c (PlayerOutput.playerAssigned c) killRaises).2 =
      .ok () := by
  rw [hp]
  obtain ⟨np, ht, fn, q, k, cl⟩ := c
  cases np <;> cases ht <;> cases fn <;> cases q <;> cases k <;> cases cl <;>
    cases killRaises <;> decide

theorem C9_close_sequence_witness :
    (PlayerOutput.closeBody ⟨false, false, false, true, true, false⟩
        (PlayerOutput.playerAssigned ⟨false, false, false, true, true, false⟩)
        true).1 =
      [PAction.stdinClose, PAction.killChild, PAction.waitChild] := by
  have h := C9_close_sequence ⟨false, false, false, true, true, false⟩ true rfl
  simpa using h.1

/-- C10: in blocking call mode (call set together with a filename), open
succeeds without storing a child-process handle, so closing the opened
sink fails: the kill step swallows its AttributeError, but the
unconditional self.player.wait() raises AttributeError, and neither a
kill nor a wait of a child ever happens — the close sequence does not
complete. -/
theorem C10_call_mode_close_fails (c : PlayerConfig) (childExited : Bool)
    (killRaises : Bool) (hcall : c.call = true) (hfile : c.filename = true) :
    PlayerOutput.playerAssigned c = false ∧
    (PlayerOutput.openMethod c childExited).2.1 = .ok () ∧
    (PlayerOutput.openMethod c childExited).2.2 = some true ∧
    (PlayerOutput.killStep c (PlayerOutput.playerAssigned c) killRaises).2 =
      .ok () ∧
    (PlayerOutput.closeBody c (PlayerOutput.playerAssigned c) killRaises).2 =
      .error (.attributeError "player") ∧
    PAction.killChild ∉
      (PlayerOutput.closeBody c (PlayerOutput.playerAssigned c) killRaises).1 ∧
    PAction.waitChild ∉
      (PlayerOutput.closeBody c (PlayerOutput.playerAssigned c) killRaises).1 := by
  obtain ⟨np, ht, fn, q, k, cl⟩ := c
  cases cl with
  | false => exact Bool.noConfusion hcall
  | true =>
    cases fn with
    | false => exact Bool.noConfusion hfile
    | true =>
      cases np <;> cases ht <;> cases q <;> cases k <;>
        cases childExited <;> cases killRaises <;> decide

theorem C10_call_mode_close_fails_witness :
    (PlayerOutput.closeBody ⟨false, false, true, true, true, true⟩
        (PlayerOutput.playerAssigned ⟨false, false, true, true, true, true⟩)
        false).2 = .error (.attributeError "player") :=
  (C10_call_mode_close_fails ⟨false, false, true, true, true, true⟩
    false false rfl rfl).2.2.2.2.1

end Livestreamer
